import Mathlib

set_option maxRecDepth 16384

/-!
Verification of the tool-call routing and input/output contract layer of the
mcp_contextual_ai repository: validators (`utils/validators.py`), formatters
(`utils/formatters.py`), the database and RAG services (`services/database.py`,
`services/rag.py`), the tool modules (`tools/db_tools.py`, `tools/rag_tools.py`)
and the dispatcher (`mcp_runner.py`) are shallowly embedded as executable Lean
definitions, and the specified properties are settled against them.

Modelling conventions: Python exceptions become `Except PyError` values where
`PyError` records the exception class name and `str(e)`; the PostgreSQL store,
the filesystem check `os.path.exists` and the RAG HTTP endpoints are oracles
supplied as function-valued fields of `Store` / `RagEnv`; every service call
additionally reports which queries were submitted to the store and how many
HTTP requests were issued, so that "the store is never invoked" and "no network
call is made" are provable statements.
-/

/-- Characters treated as whitespace by Python `str.strip()`. -/
def pyIsSpace (c : Char) : Bool :=
  c = ' ' || c = '\t' || c = '\n' || c = '\r' || c = '\x0b' || c = '\x0c'

/-- Python `str.strip()` on the character list of a string. -/
def pyStrip (s : List Char) : List Char :=
  ((s.dropWhile pyIsSpace).reverse.dropWhile pyIsSpace).reverse

/-- Python `str.upper()` (ASCII case mapping, which covers all text the
validators compare against). -/
def pyUpper (s : List Char) : List Char := s.map Char.toUpper

/-- Python `str.lower()` (ASCII case mapping). -/
def pyLower (s : List Char) : List Char := s.map Char.toLower

/-- `startsWithL pat t` holds when `pat` is an initial segment of `t`
(Python `str.startswith`). -/
def startsWithL : List Char → List Char → Bool
  | [], _ => true
  | _ :: _, [] => false
  | a :: as, b :: bs => a = b && startsWithL as bs

/-- `endsWithL pat t` holds when `pat` is a final segment of `t`
(Python `str.endswith`). -/
def endsWithL (pat t : List Char) : Bool :=
  startsWithL pat.reverse t.reverse

/-- If `pat` is an initial segment of `t`, return the remainder of `t`. -/
def dropPatQ : List Char → List Char → Option (List Char)
  | [], t => some t
  | _ :: _, [] => none
  | a :: as, b :: bs => if a = b then dropPatQ as bs else none

/-- Word characters for the purposes of the regex `\b` boundary
(`[A-Za-z0-9_]`). -/
def isWordChar (c : Char) : Bool := c.isAlphanum || c = '_'

/-- Does `kw` occur at the head of `t` with a word boundary after it?  (All
keywords matched in the source start and end with letters, so the `\b`
boundaries reduce to the neighbouring character not being a word character.) -/
def matchWordHere (kw t : List Char) : Bool :=
  match dropPatQ kw t with
  | none => false
  | some [] => true
  | some (c :: _) => !(isWordChar c)

/-- Scan `t` for a whole-word occurrence of `kw`; `prevW` records whether the
character immediately before the current position is a word character. -/
def searchWord (kw : List Char) : List Char → Bool → Bool
  | [], prevW => !prevW && matchWordHere kw []
  | c :: rest, prevW =>
    (!prevW && matchWordHere kw (c :: rest)) || searchWord kw rest (isWordChar c)

/-- Embedding of `re.search(rf'\b{kw}\b', t)` for keywords made of letters. -/
def containsWord (kw t : List Char) : Bool := searchWord kw t false

/-- Plain substring test (Python `in` on strings). -/
def containsSub (pat : List Char) : List Char → Bool
  | [] => startsWithL pat []
  | c :: rest => startsWithL pat (c :: rest) || containsSub pat rest

deriving instance DecidableEq for Except

/-- A Python exception as observed by `format_error_message`: the class name
(`type(e).__name__`) and the message (`str(e)`). -/
structure PyError where
  ename : String
  msg : String
  deriving DecidableEq, Repr

/-- Scalar values appearing in database rows. -/
inductive PyValue where
  | vNull
  | vStr (s : String)
  | vInt (n : Int)
  deriving DecidableEq, Repr

/-- A database row: `RealDictCursor` returns an ordered mapping from column
name to value. -/
abbrev Row := List (String × PyValue)

/-- The denylist of `validate_sql_query`, in source order. -/
def dangerous_keywords : List String :=
  ["DROP", "DELETE", "TRUNCATE", "ALTER",
   "CREATE", "INSERT", "UPDATE", "GRANT",
   "REVOKE", "EXECUTE", "EXEC"]

/-- `query.upper().strip()` from `validate_sql_query`. -/
def sqlNorm (q : String) : List Char := pyStrip (pyUpper q.data)

/-- `utils/validators.py` `validate_sql_query`: rejects empty input, any
whole-word denylisted keyword (first match wins, source order), and any
query whose normalised text does not start with `SELECT`. -/
def validate_sql_query (query : String) : Except PyError Bool :=
  if query.data = [] then
    .error ⟨"ValidationError", "Query must be a non-empty string"⟩
  else
    match dangerous_keywords.find? (fun kw => containsWord kw.data (sqlNorm query)) with
    | some kw =>
      .error ⟨"ValidationError",
        "Query contains forbidden keyword: " ++ kw ++ ". Only SELECT queries are allowed."⟩
    | none =>
      if startsWithL "SELECT".data (sqlNorm query) then .ok true
      else
        .error ⟨"ValidationError",
          "Query must start with SELECT. Only read-only SELECT queries are allowed."⟩

/-- `utils/validators.py` `validate_question`. -/
def validate_question (question : String) (max_length : Int) : Except PyError Bool :=
  if question.data = [] then
    .error ⟨"ValidationError", "Question must be a non-empty string"⟩
  else if pyStrip question.data = [] then
    .error ⟨"ValidationError", "Question cannot be empty or whitespace only"⟩
  else if (question.data.length : Int) > max_length then
    .error ⟨"ValidationError",
      "Question too long (" ++ toString question.data.length ++
        " characters). Maximum allowed: " ++ toString max_length ++ " characters"⟩
  else .ok true

/-- `utils/validators.py` `validate_file_path`. -/
def validate_file_path (file_path : String) (allowed_extensions : List String) :
    Except PyError Bool :=
  if file_path.data = [] then
    .error ⟨"ValidationError", "File path must be a non-empty string"⟩
  else if containsSub "..".data file_path.data
      || startsWithL "/etc".data file_path.data
      || startsWithL "/root".data file_path.data then
    .error ⟨"ValidationError", "Invalid file path: potential security risk"⟩
  else if !allowed_extensions.isEmpty
      && !(allowed_extensions.any (fun ext => endsWithL ext.data (pyLower file_path.data))) then
    .error ⟨"ValidationError",
      "File extension not allowed. Allowed: " ++ String.intercalate ", " allowed_extensions⟩
  else .ok true

/-- `utils/validators.py` `validate_limit` (the integer type check is carried
by the `Int` argument type). -/
def validate_limit (limit : Int) (max_limit : Int) : Except PyError Bool :=
  if limit < 1 then
    .error ⟨"ValidationError", "Limit must be at least 1"⟩
  else if limit > max_limit then
    .error ⟨"ValidationError",
      "Limit exceeds maximum allowed value of " ++ toString max_limit⟩
  else .ok true

/-- `utils/formatters.py` `_format_value`: `None` renders as `NULL`, other
scalars via `str` (the datetime branch is not exercised by any claim and the
value type carries none). -/
def formatValue : PyValue → String
  | .vNull => "NULL"
  | .vStr s => s
  | .vInt n => toString n

/-- One record block of `format_database_results`: the `--- Record i ---`
header line and one `key: value` line per column, as the pieces appended to
`output` by the source loop. -/
def recordLines (i : Nat) (row : Row) : List String :=
  ("\n--- Record " ++ toString i ++ " ---")
    :: row.map (fun kv => kv.1 ++ ": " ++ formatValue kv.2)

/-- The full `output` list built by the `enumerate(display_results, 1)` loop. -/
def recordBlocks : Nat → List Row → List String
  | _, [] => []
  | i, r :: rs => recordLines i r ++ recordBlocks (i + 1) rs

/-- `utils/formatters.py` `format_database_results`: `"No results found"` for
an empty row set, otherwise newline-joined record blocks, truncated to
`max_records` rows (Python truthiness: `None` and `0` mean no truncation)
with a `(Showing m of n total records)` footer when rows were dropped. -/
def format_database_results (results : List Row) (max_records : Option Nat) : String :=
  if results.isEmpty then "No results found"
  else
    let display :=
      match max_records with
      | some n => if n ≠ 0 then results.take n else results
      | none => results
    let truncated :=
      match max_records with
      | some n => if n ≠ 0 then decide (display.length < results.length) else false
      | none => false
    let text := String.intercalate "\n" (recordBlocks 1 display)
    if truncated then
      text ++ "\n\n(Showing " ++ toString display.length ++ " of "
        ++ toString results.length ++ " total records)"
    else text

/-- One source entry of a RAG answer, as read by `_format_context_item`:
`page`, `similarity` and `text` keys may each be absent.  `similarity` is a
float in the source and only its rendered `f-string` percent form matters to
the output, so the model carries that rendering; `none` stands for the falsy
default `0`, under which the relevance parenthesis is omitted. -/
structure CtxItem where
  page : Option String
  similarity : Option String
  text : Option String
  deriving DecidableEq, Repr

/-- The RAG `/query` response as read by `format_rag_response`: only the
`answer` and `context` keys are consulted; the dict may also carry a
`confidence` key, which the formatter never reads. -/
structure RagResponse where
  answer : Option String
  context : List CtxItem
  confidence : Option String
  deriving DecidableEq, Repr

/-- `utils/formatters.py` `_format_context_item`. -/
def formatContextItem (ctx : CtxItem) (index : Nat) : String :=
  let page := ctx.page.getD "unknown"
  let text := ctx.text.getD ""
  let preview :=
    if text.data.length > 150 then String.mk (text.data.take 150) ++ "..." else text
  "\n" ++ toString index ++ ". Page " ++ page
    ++ (match ctx.similarity with
        | some s => " (relevance: " ++ s ++ ")"
        | none => "")
    ++ "\n   " ++ preview ++ "\n"

/-- The `enumerate(context, 1)` accumulation loop of `format_rag_response`. -/
def ctxItems : List CtxItem → Nat → String
  | [], _ => ""
  | c :: cs, i => formatContextItem c i ++ ctxItems cs (i + 1)

/-- `utils/formatters.py` `format_rag_response`: the answer line (fallback
`"No answer provided"`), a blank line, then the `Sources:` section when the
context list is non-empty. -/
def format_rag_response (response : RagResponse) : String :=
  let answer := response.answer.getD "No answer provided"
  let base := "Answer: " ++ answer ++ "\n\n"
  if response.context.isEmpty then base
  else base ++ "Sources:\n" ++ ctxItems response.context 1

/-- A document entry of the RAG `/api/documents` listing, as read by
`format_document_list`; `created_at` is carried already rendered (the source
reformats datetime objects, and passes strings through unchanged). -/
structure DocumentInfo where
  id : Option String
  title : Option String
  created_at : Option String
  description : Option String
  page_count : Option Int
  deriving DecidableEq, Repr

/-- One numbered block of `format_document_list`. -/
def documentBlock (doc : DocumentInfo) (i : Nat) : String :=
  toString i ++ ". " ++ doc.title.getD "Untitled" ++ "\n"
    ++ "   ID: " ++ doc.id.getD "unknown" ++ "\n"
    ++ "   Created: " ++ doc.created_at.getD "unknown" ++ "\n"
    ++ (match doc.description with
        | some d => if d = "" then "" else "   Description: " ++ d ++ "\n"
        | none => "")
    ++ (match doc.page_count with
        | some n => "   Pages: " ++ toString n ++ "\n"
        | none => "")
    ++ "\n"

/-- The `enumerate(documents, 1)` loop of `format_document_list`. -/
def documentBlocks : List DocumentInfo → Nat → String
  | [], _ => ""
  | d :: ds, i => documentBlock d i ++ documentBlocks ds (i + 1)

/-- `utils/formatters.py` `format_document_list`. -/
def format_document_list (documents : List DocumentInfo) : String :=
  if documents.isEmpty then "No documents found"
  else
    "Found " ++ toString documents.length ++ " document(s):\n\n"
      ++ documentBlocks documents 1

/-- The RAG `/api/upload` response as read by `format_upload_result`. -/
structure UploadResponse where
  document_id : Option String
  status : Option String
  title : Option String
  chunks_created : Option Int
  deriving DecidableEq, Repr

/-- `utils/formatters.py` `format_upload_result`. -/
def format_upload_result (response : UploadResponse) (file_path : String) : String :=
  "PDF uploaded successfully!\n"
    ++ "File: " ++ file_path ++ "\n"
    ++ "Document ID: " ++ response.document_id.getD "unknown" ++ "\n"
    ++ "Status: " ++ response.status.getD "unknown" ++ "\n"
    ++ (match response.title with
        | some t => "Title: " ++ t ++ "\n"
        | none => "")
    ++ (match response.chunks_created with
        | some n => "Chunks created: " ++ toString n ++ "\n"
        | none => "")

/-- `utils/formatters.py` `format_error_message`: the uniform error envelope
`Error executing <tool>: [<exception class>] <message>`. -/
def format_error_message (error : PyError) (tool_name : String) : String :=
  "Error executing " ++ tool_name ++ ": [" ++ error.ename ++ "] " ++ error.msg

/-- The `KeyError` raised by `arguments["k"]` on a missing key; its `str` is
the repr of the key, i.e. the key in single quotes. -/
def keyError (k : String) : PyError :=
  ⟨"KeyError", "\x27" ++ k ++ "\x27"⟩

/-- The PostgreSQL store as an oracle: `exec q params` stands for
`cursor.execute(q, params); cursor.fetchall()`, with connection establishment
and execution failures folded into the `Except` error. -/
structure Store where
  exec : String → Option (List PyValue) → Except PyError (List Row)

/-- The record of queries submitted to the store: each entry is the
`(query, params)` pair handed to `cursor.execute`. -/
abbrev DbLog := List (String × Option (List PyValue))

/-- `services/database.py` `DatabaseService.execute_select_query`: validate
first (a `ValidationError` propagates before any connection or execution),
then submit to the store.  The second component records the submissions. -/
def execute_select_query (store : Store) (query : String)
    (params : Option (List PyValue)) : Except PyError (List Row) × DbLog :=
  match validate_sql_query query with
  | .error e => (.error e, [])
  | .ok _ =>
    match store.exec query params with
    | .ok rows => (.ok rows, [(query, params)])
    | .error e => (.error e, [(query, params)])

/-- `services/database.py` `DatabaseService.get_documents`: validate the
limit, then run one of two fixed query shapes depending on the truthiness of
`user_id` (both `None` and the empty string select the unfiltered query). -/
def get_documents (store : Store) (limit : Int) (user_id : Option String) :
    Except PyError (List Row) × DbLog :=
  match validate_limit limit 1000 with
  | .error e => (.error e, [])
  | .ok _ =>
    match user_id with
    | some uid =>
      if uid ≠ "" then
        execute_select_query store "SELECT * FROM documents WHERE user_id = %s LIMIT %s"
          (some [.vStr uid, .vInt limit])
      else
        execute_select_query store "SELECT * FROM documents LIMIT %s" (some [.vInt limit])
    | none =>
      execute_select_query store "SELECT * FROM documents LIMIT %s" (some [.vInt limit])

/-- `services/database.py` `DatabaseService.get_user`: one fixed query, the
head row or `None`. -/
def get_user (store : Store) (user_id : String) :
    Except PyError (Option Row) × DbLog :=
  match execute_select_query store "SELECT * FROM users WHERE id = %s"
      (some [.vStr user_id]) with
  | (.ok rows, log) => (.ok rows.head?, log)
  | (.error e, log) => (.error e, log)

/-- A failure of a `requests` call: a timeout (`requests.Timeout`, a subclass
of `RequestException`) or another request failure, each carrying its `str`. -/
inductive RagFailure where
  | timeout (msg : String)
  | reqError (msg : String)
  deriving DecidableEq, Repr

/-- The RAG service environment: the filesystem check `os.path.exists` and the
three HTTP endpoints as oracles. -/
structure RagEnv where
  fs : String → Bool
  askApi : String → Option String → Except RagFailure RagResponse
  uploadApi : String → List (String × String) → Except RagFailure UploadResponse
  listApi : Except RagFailure (List DocumentInfo)

/-- `services/rag.py` `RAGService.ask_question`: inline validation (empty and
over-1000-character questions are rejected before any request), then one POST
to `/query` whose failures are normalised to `Exception` messages.  The second
component counts HTTP requests issued. -/
def ask_question (env : RagEnv) (question : String) (document_id : Option String) :
    Except PyError RagResponse × Nat :=
  if question.data = [] || pyStrip question.data = [] then
    (.error ⟨"ValueError", "Question cannot be empty"⟩, 0)
  else if question.data.length > 1000 then
    (.error ⟨"ValueError", "Question too long (max 1000 characters)"⟩, 0)
  else
    match env.askApi question document_id with
    | .ok r => (.ok r, 1)
    | .error (.timeout _) =>
      (.error ⟨"Exception", "RAG API timeout - please try again"⟩, 1)
    | .error (.reqError m) =>
      (.error ⟨"Exception", "RAG API error: " ++ m⟩, 1)

/-- `services/rag.py` `RAGService.upload_document`: the existence check comes
first, then the inline case-insensitive extension check, and only then the
POST to `/api/upload` (only truthy title/description enter the metadata). -/
def upload_document (env : RagEnv) (file_path : String)
    (title description : Option String) : Except PyError UploadResponse × Nat :=
  if env.fs file_path = false then
    (.error ⟨"FileNotFoundError", "File not found: " ++ file_path⟩, 0)
  else if !endsWithL ".pdf".data (pyLower file_path.data) then
    (.error ⟨"ValueError", "Only PDF files are supported"⟩, 0)
  else
    let metadata :=
      (match title with
       | some t => if t = "" then [] else [("title", t)]
       | none => [])
      ++ (match description with
          | some d => if d = "" then [] else [("description", d)]
          | none => [])
    match env.uploadApi file_path metadata with
    | .ok r => (.ok r, 1)
    | .error (.timeout m) => (.error ⟨"Exception", "Upload error: " ++ m⟩, 1)
    | .error (.reqError m) => (.error ⟨"Exception", "Upload error: " ++ m⟩, 1)

/-- `services/rag.py` `RAGService.list_documents`: one GET to
`/api/documents`, failures normalised to an `Exception` message. -/
def list_documents_svc (env : RagEnv) : Except PyError (List DocumentInfo) × Nat :=
  match env.listApi with
  | .ok docs => (.ok docs, 1)
  | .error (.timeout m) =>
    (.error ⟨"Exception", "Failed to list documents: " ++ m⟩, 1)
  | .error (.reqError m) =>
    (.error ⟨"Exception", "Failed to list documents: " ++ m⟩, 1)

/-- The argument bag of a tool call: each declared parameter either present or
absent (`arguments.get` / `arguments[...]` semantics). -/
structure Args where
  query : Option String
  limit : Option Int
  user_id : Option String
  question : Option String
  document_id : Option String
  file_path : Option String
  title : Option String
  description : Option String
  deriving Repr

/-- The all-absent argument bag. -/
def Args.empty : Args := ⟨none, none, none, none, none, none, none, none⟩

/-- `tools/db_tools.py` `DatabaseTools._handle_query_database`: required
`query` argument, service call, then the success header plus formatted rows. -/
def handle_query_database (store : Store) (args : Args) :
    Except PyError (List String) × DbLog :=
  match args.query with
  | none => (.error (keyError "query"), [])
  | some q =>
    match execute_select_query store q none with
    | (.ok results, log) =>
      (.ok ["Query executed successfully. Found " ++ toString results.length
          ++ " rows.\n\n" ++ format_database_results results none], log)
    | (.error e, log) => (.error e, log)

/-- `tools/db_tools.py` `DatabaseTools._handle_get_documents`: `limit`
defaults to 10, `user_id` is optional. -/
def handle_get_documents (store : Store) (args : Args) :
    Except PyError (List String) × DbLog :=
  match get_documents store (args.limit.getD 10) args.user_id with
  | (.ok results, log) =>
    (.ok ["Found " ++ toString results.length ++ " documents:\n\n"
        ++ format_database_results results none], log)
  | (.error e, log) => (.error e, log)

/-- `tools/db_tools.py` `DatabaseTools._handle_get_user_info`: required
`user_id`; a falsy result (`None`, and also an empty row dict) renders as the
`User not found` success text. -/
def handle_get_user_info (store : Store) (args : Args) :
    Except PyError (List String) × DbLog :=
  match args.user_id with
  | none => (.error (keyError "user_id"), [])
  | some uid =>
    match get_user store uid with
    | (.ok user, log) =>
      match user with
      | some r =>
        if r.isEmpty then (.ok ["User not found: " ++ uid], log)
        else
          (.ok ["User information:\n\n" ++ format_database_results [r] none], log)
      | none => (.ok ["User not found: " ++ uid], log)
    | (.error e, log) => (.error e, log)

/-- The `try`/`except` frame of `DatabaseTools.execute_tool`: a raised
exception becomes a single `format_error_message` text. -/
def dbWrap (name : String) : Except PyError (List String) × DbLog → List String × DbLog
  | (.ok texts, log) => (texts, log)
  | (.error e, log) => ([format_error_message e name], log)

/-- `tools/db_tools.py` `DatabaseTools.execute_tool`: route to a handler and
catch every failure into one error text. -/
def dbExecuteTool (store : Store) (name : String) (args : Args) :
    List String × DbLog :=
  dbWrap name
    (if name = "query_database" then handle_query_database store args
     else if name = "get_documents_from_db" then handle_get_documents store args
     else if name = "get_user_info" then handle_get_user_info store args
     else (.error ⟨"ValueError", "Unknown database tool: " ++ name⟩, []))

/-- `tools/rag_tools.py` `RAGTools._handle_ask_rag`. -/
def handle_ask_rag (env : RagEnv) (args : Args) :
    Except PyError (List String) × Nat :=
  match args.question with
  | none => (.error (keyError "question"), 0)
  | some q =>
    match ask_question env q args.document_id with
    | (.ok response, n) => (.ok [format_rag_response response], n)
    | (.error e, n) => (.error e, n)

/-- `tools/rag_tools.py` `RAGTools._handle_list_documents`. -/
def handle_list_documents (env : RagEnv) :
    Except PyError (List String) × Nat :=
  match list_documents_svc env with
  | (.ok docs, n) => (.ok [format_document_list docs], n)
  | (.error e, n) => (.error e, n)

/-- `tools/rag_tools.py` `RAGTools._handle_upload_pdf`. -/
def handle_upload_pdf (env : RagEnv) (args : Args) :
    Except PyError (List String) × Nat :=
  match args.file_path with
  | none => (.error (keyError "file_path"), 0)
  | some p =>
    match upload_document env p args.title args.description with
    | (.ok response, n) => (.ok [format_upload_result response p], n)
    | (.error e, n) => (.error e, n)

/-- The `try`/`except` frame of `RAGTools.execute_tool`. -/
def ragWrap (name : String) : Except PyError (List String) × Nat → List String × Nat
  | (.ok texts, n) => (texts, n)
  | (.error e, n) => ([format_error_message e name], n)

/-- `tools/rag_tools.py` `RAGTools.execute_tool`: route to a handler and
catch every failure into one error text. -/
def ragExecuteTool (env : RagEnv) (name : String) (args : Args) :
    List String × Nat :=
  ragWrap name
    (if name = "ask_rag" then handle_ask_rag env args
     else if name = "list_documents" then handle_list_documents env
     else if name = "upload_pdf" then handle_upload_pdf env args
     else (.error ⟨"ValueError", "Unknown RAG tool: " ++ name⟩, 0))

/-- The whole external environment of one dispatch. -/
structure Env where
  store : Store
  rag : RagEnv

/-- What one dispatch did to the outside world: store submissions and HTTP
request count. -/
structure Trace where
  dbLog : DbLog
  netCalls : Nat
  deriving DecidableEq, Repr

/-- The tool names routed to `DatabaseTools` by `mcp_runner.call_tool`. -/
def dbToolNames : List String := ["query_database", "get_documents_from_db", "get_user_info"]

/-- The tool names routed to `RAGTools` by `mcp_runner.call_tool`. -/
def ragToolNames : List String := ["ask_rag", "list_documents", "upload_pdf"]

/-- `mcp_runner.py` `call_tool`: route by membership in the two fixed name
lists; any other name yields the plain `Unknown tool` text. -/
def call_tool (env : Env) (name : String) (args : Args) : List String × Trace :=
  if dbToolNames.contains name then
    let r := dbExecuteTool env.store name args
    (r.1, ⟨r.2, 0⟩)
  else if ragToolNames.contains name then
    let r := ragExecuteTool env.rag name args
    (r.1, ⟨[], r.2⟩)
  else
    (["Unknown tool: " ++ name], ⟨[], 0⟩)

/-- A concrete benign environment: the store answers every query with zero
rows, no file exists, and every RAG endpoint fails with a request error. -/
def cEnv : Env :=
  ⟨⟨fun _ _ => .ok []⟩,
   ⟨fun _ => false,
    fun _ _ => .error (.reqError "connection refused"),
    fun _ _ => .error (.reqError "connection refused"),
    .error (.reqError "connection refused")⟩⟩

/-- A concrete environment whose filesystem reports every path as existing. -/
def cEnvFs : Env :=
  ⟨⟨fun _ _ => .ok []⟩,
   ⟨fun _ => true,
    fun _ _ => .error (.reqError "connection refused"),
    fun _ _ => .error (.reqError "connection refused"),
    .error (.reqError "connection refused")⟩⟩

example : validate_sql_query "SELECT dropped_column FROM t" = .ok true := by decide
example : (validate_sql_query "UPDATE t SET x=1").isOk = false := by decide
example : format_database_results [] none = "No results found" := rfl
example : format_database_results [[("a", .vNull)]] none
    = "\n--- Record 1 ---\na: NULL" := by decide
example : call_tool cEnv "nope" Args.empty = (["Unknown tool: nope"], ⟨[], 0⟩) := rfl
example :
    call_tool cEnv "get_user_info" ⟨none, none, some "missing-id", none, none, none, none, none⟩
      = (["User not found: missing-id"],
         ⟨[("SELECT * FROM users WHERE id = %s", some [.vStr "missing-id"])], 0⟩) := by
  decide

/-- C2: `validate_sql_query` accepts a query if and only if, after uppercasing
and trimming, the text begins with `SELECT` and contains no denylisted keyword
as a whole word (word-boundary match); in particular a forbidden verb hidden
inside an identifier does not reject, and a query not beginning with `SELECT`
rejects. -/
theorem c2_validate_sql_query_iff :
    (∀ q : String, validate_sql_query q = .ok true ↔
        (startsWithL "SELECT".data (sqlNorm q) = true ∧
         ∀ kw ∈ dangerous_keywords, containsWord kw.data (sqlNorm q) = false)) ∧
    validate_sql_query "SELECT dropped_column FROM t" = .ok true ∧
    validate_sql_query "SELECT * FROM t; DROP TABLE t"
      = .error ⟨"ValidationError",
          "Query contains forbidden keyword: DROP. Only SELECT queries are allowed."⟩ ∧
    validate_sql_query "show tables"
      = .error ⟨"ValidationError",
          "Query must start with SELECT. Only read-only SELECT queries are allowed."⟩ := by
  refine ⟨fun q => ?_, by decide, by decide, by decide⟩
  unfold validate_sql_query
  by_cases hq : q.data = []
  · rw [if_pos hq]
    constructor
    · intro h; exact absurd h (by simp)
    · rintro ⟨h1, -⟩
      have hn : sqlNorm q = [] := by simp [sqlNorm, hq, pyUpper, pyStrip]
      rw [hn] at h1
      exact absurd h1 (by decide)
  · rw [if_neg hq]
    cases hfind : dangerous_keywords.find? (fun kw => containsWord kw.data (sqlNorm q)) with
    | some kw =>
      simp only [hfind]
      constructor
      · intro h; exact absurd h (by simp)
      · rintro ⟨-, h2⟩
        have hp := List.find?_some hfind
        have hmem := List.mem_of_find?_eq_some hfind
        simp only [h2 kw hmem] at hp
        cases hp
    | none =>
      have hall := List.find?_eq_none.mp hfind
      simp only [hfind]
      by_cases hsw : startsWithL "SELECT".data (sqlNorm q) = true
      · rw [if_pos hsw]
        refine ⟨fun _ => ⟨hsw, fun kw hkw => ?_⟩, fun _ => rfl⟩
        have := hall kw hkw
        simpa using this
      · rw [if_neg hsw]
        constructor
        · intro h; exact absurd h (by simp)
        · rintro ⟨h1, -⟩; exact absurd h1 hsw

/-- C9: `validate_question` with the default limit 1000 accepts exactly the
questions that are non-blank after trimming and whose untrimmed length is at
most 1000; a 1001-character question and an all-whitespace question reject. -/
theorem c9_validate_question_iff :
    (∀ q : String, validate_question q 1000 = .ok true ↔
        (pyStrip q.data ≠ [] ∧ q.data.length ≤ 1000)) ∧
    validate_question (String.mk (List.replicate 1001 'a')) 1000
      = .error ⟨"ValidationError",
          "Question too long (1001 characters). Maximum allowed: 1000 characters"⟩ ∧
    validate_question "   " 1000
      = .error ⟨"ValidationError", "Question cannot be empty or whitespace only"⟩ := by
  refine ⟨fun q => ?_, by decide, by decide⟩
  unfold validate_question
  by_cases h0 : q.data = []
  · rw [if_pos h0]
    constructor
    · intro h; exact absurd h (by simp)
    · rintro ⟨h1, -⟩
      exact absurd (by simp [h0, pyStrip]) h1
  · rw [if_neg h0]
    by_cases h1 : pyStrip q.data = []
    · rw [if_pos h1]
      constructor
      · intro h; exact absurd h (by simp)
      · rintro ⟨h2, -⟩; exact absurd h1 h2
    · rw [if_neg h1]
      by_cases h2 : (q.data.length : Int) > 1000
      · rw [if_pos h2]
        constructor
        · intro h; exact absurd h (by simp)
        · rintro ⟨-, h3⟩; omega
      · rw [if_neg h2]
        exact ⟨fun _ => ⟨h1, by omega⟩, fun _ => rfl⟩

/-- Every `(query, params)` pair that `execute_select_query` submits to the
store satisfies any predicate holding of the submitted pair itself (the log is
either empty or the singleton of that pair). -/
theorem execute_select_query_log_all (store : Store) (q : String)
    (params : Option (List PyValue)) (f : String × Option (List PyValue) → Bool)
    (hf : f (q, params) = true) :
    ((execute_select_query store q params).2.all f) = true := by
  unfold execute_select_query
  split
  · rfl
  · split <;> simp [hf]

/-- C8: the query text submitted to the store by `get_documents` is always one
of the two fixed constant strings (filtered / unfiltered), and the query text
submitted by `get_user` is one fixed constant string, for every limit and
user id — caller-supplied values travel only in the parameter tuple. -/
theorem c8_fixed_query_text (store : Store) (limit : Int) (user_id : Option String)
    (uid : String) :
    ((get_documents store limit user_id).2.all
      (fun s => s.1 == "SELECT * FROM documents WHERE user_id = %s LIMIT %s"
             || s.1 == "SELECT * FROM documents LIMIT %s")) = true ∧
    ((get_user store uid).2.all
      (fun s => s.1 == "SELECT * FROM users WHERE id = %s")) = true := by
  constructor
  · unfold get_documents
    split
    · rfl
    · split
      · split
        · exact execute_select_query_log_all _ _ _ _ (by rfl)
        · exact execute_select_query_log_all _ _ _ _ (by rfl)
      · exact execute_select_query_log_all _ _ _ _ (by rfl)
  · unfold get_user
    split
    next heq =>
      have := congrArg Prod.snd heq
      simp only at this
      rw [← this]
      exact execute_select_query_log_all _ _ _ _ (by rfl)
    next heq =>
      have := congrArg Prod.snd heq
      simp only at this
      rw [← this]
      exact execute_select_query_log_all _ _ _ _ (by rfl)

/-- C3 counterexample: on a response whose confidence field is present, the
formatter output is just the answer block — it contains no `Confidence` text
at all, so the claimed `Confidence: <value>` line (or its `unknown` fallback)
is not rendered. -/
theorem c3_counterexample :
    format_rag_response ⟨some "A", [], some "high"⟩ = "Answer: A\n\n" ∧
    containsSub "Confidence".data "Answer: A\n\n".data = false := by
  exact ⟨by decide, by decide⟩

/-- C3 amended: `format_rag_response` renders the answer line (fallback
`No answer provided`), a blank line, then the `Sources:` section exactly when
the context list is non-empty; it renders no confidence line and its output is
independent of the confidence field. -/
theorem c3_rag_answer_format (answer : Option String) (ctx : List CtxItem)
    (c1 c2 : Option String) :
    format_rag_response ⟨answer, ctx, c1⟩ = format_rag_response ⟨answer, ctx, c2⟩ ∧
    format_rag_response ⟨answer, ctx, c1⟩
      = "Answer: " ++ answer.getD "No answer provided" ++ "\n\n"
        ++ (if ctx.isEmpty then "" else "Sources:\n" ++ ctxItems ctx 1) := by
  constructor
  · rfl
  · cases ctx with
    | nil => simp [format_rag_response, String.append_empty]
    | cons hd tl =>
      show ("Answer: " ++ answer.getD "No answer provided" ++ "\n\n" ++ "Sources:\n")
            ++ ctxItems (hd :: tl) 1 = _
      simp only [List.isEmpty_cons, if_neg (by decide : ¬(false = true))]
      rw [String.append_assoc]

/-- `_handle_query_database` only ever succeeds with a single text block. -/
theorem handle_query_database_len (store : Store) (args : Args) :
    ∀ ts, (handle_query_database store args).1 = .ok ts → ts.length = 1 := by
  unfold handle_query_database
  split
  · intro ts h; cases h
  · split
    · intro ts h; cases h; rfl
    · intro ts h; cases h

/-- `_handle_get_documents` only ever succeeds with a single text block. -/
theorem handle_get_documents_len (store : Store) (args : Args) :
    ∀ ts, (handle_get_documents store args).1 = .ok ts → ts.length = 1 := by
  unfold handle_get_documents
  split
  · intro ts h; cases h; rfl
  · intro ts h; cases h

/-- `_handle_get_user_info` only ever succeeds with a single text block. -/
theorem handle_get_user_info_len (store : Store) (args : Args) :
    ∀ ts, (handle_get_user_info store args).1 = .ok ts → ts.length = 1 := by
  unfold handle_get_user_info
  split
  · intro ts h; cases h
  · split
    · split
      · split
        · intro ts h; cases h; rfl
        · intro ts h; cases h; rfl
      · intro ts h; cases h; rfl
    · intro ts h; cases h

/-- `dbWrap` yields one text block whenever its argument does on success. -/
theorem dbWrap_len (name : String) (handled : Except PyError (List String) × DbLog)
    (h : ∀ ts, handled.1 = .ok ts → ts.length = 1) :
    (dbWrap name handled).1.length = 1 := by
  match handled with
  | (.ok ts, log) => exact h ts rfl
  | (.error e, log) => rfl

/-- `DatabaseTools.execute_tool` returns exactly one text block on every
path, success or failure. -/
theorem dbExecuteTool_len (store : Store) (name : String) (args : Args) :
    (dbExecuteTool store name args).1.length = 1 := by
  unfold dbExecuteTool
  apply dbWrap_len
  split
  · exact handle_query_database_len store args
  · split
    · exact handle_get_documents_len store args
    · split
      · exact handle_get_user_info_len store args
      · intro ts h; cases h

/-- `_handle_ask_rag` only ever succeeds with a single text block. -/
theorem handle_ask_rag_len (env : RagEnv) (args : Args) :
    ∀ ts, (handle_ask_rag env args).1 = .ok ts → ts.length = 1 := by
  unfold handle_ask_rag
  split
  · intro ts h; cases h
  · split
    · intro ts h; cases h; rfl
    · intro ts h; cases h

/-- `_handle_list_documents` only ever succeeds with a single text block. -/
theorem handle_list_documents_len (env : RagEnv) :
    ∀ ts, (handle_list_documents env).1 = .ok ts → ts.length = 1 := by
  unfold handle_list_documents
  split
  · intro ts h; cases h; rfl
  · intro ts h; cases h

/-- `_handle_upload_pdf` only ever succeeds with a single text block. -/
theorem handle_upload_pdf_len (env : RagEnv) (args : Args) :
    ∀ ts, (handle_upload_pdf env args).1 = .ok ts → ts.length = 1 := by
  unfold handle_upload_pdf
  split
  · intro ts h; cases h
  · split
    · intro ts h; cases h; rfl
    · intro ts h; cases h

/-- `ragWrap` yields one text block whenever its argument does on success. -/
theorem ragWrap_len (name : String) (handled : Except PyError (List String) × Nat)
    (h : ∀ ts, handled.1 = .ok ts → ts.length = 1) :
    (ragWrap name handled).1.length = 1 := by
  match handled with
  | (.ok ts, n) => exact h ts rfl
  | (.error e, n) => rfl

/-- `RAGTools.execute_tool` returns exactly one text block on every path. -/
theorem ragExecuteTool_len (env : RagEnv) (name : String) (args : Args) :
    (ragExecuteTool env name args).1.length = 1 := by
  unfold ragExecuteTool
  apply ragWrap_len
  split
  · exact handle_ask_rag_len env args
  · split
    · exact handle_list_documents_len env
    · split
      · exact handle_upload_pdf_len env args
      · intro ts h; cases h

/-- C1 counterexample: dispatching an unregistered tool name is a failure
(per the claim's own enumeration) yet its text is the plain
`Unknown tool: <name>`, which does not carry the
`Error executing <tool>: [<kind>] <message>` envelope shape. -/
theorem c1_counterexample :
    call_tool cEnv "frobnicate" Args.empty = (["Unknown tool: frobnicate"], ⟨[], 0⟩) ∧
    startsWithL "Error executing".data "Unknown tool: frobnicate".data = false := by
  exact ⟨rfl, by decide⟩

/-- C1 (amended): every call through the dispatcher returns exactly one text
block and no exception escapes; failures caught inside the two registered tool
families render as `Error executing <tool>: [<kind>] <message>`, while an
unknown tool name renders as the plain `Unknown tool: <name>` text. -/
theorem c1_one_text_block (env : Env) (name : String) (args : Args) :
    (call_tool env name args).1.length = 1 ∧
    ((dbToolNames.contains name || ragToolNames.contains name) = false →
      call_tool env name args = (["Unknown tool: " ++ name], ⟨[], 0⟩)) ∧
    (∀ (e : PyError) (handled : Except PyError (List String) × DbLog),
      handled.1 = .error e → (dbWrap name handled).1 = [format_error_message e name]) ∧
    (∀ (e : PyError) (handled : Except PyError (List String) × Nat),
      handled.1 = .error e → (ragWrap name handled).1 = [format_error_message e name]) := by
  refine ⟨?_, ?_, ?_, ?_⟩
  · unfold call_tool
    split
    · exact dbExecuteTool_len env.store name args
    · split
      · exact ragExecuteTool_len env.rag name args
      · rfl
  · intro h
    rw [Bool.or_eq_false_iff] at h
    unfold call_tool
    rw [if_neg (by simpa using h.1), if_neg (by simpa using h.2)]
  · intro e handled h
    match handled, h with
    | (.error e0, log), h => cases h; rfl
  · intro e handled h
    match handled, h with
    | (.error e0, n), h => cases h; rfl

/-- C1 witness: the amended theorem evaluated at the benign environment, the
unregistered name `frobnicate`, and a concrete caught error. -/
theorem c1_one_text_block_witness :
    (dbToolNames.contains "frobnicate" || ragToolNames.contains "frobnicate") = false ∧
    (call_tool cEnv "frobnicate" Args.empty).1.length = 1 ∧
    call_tool cEnv "frobnicate" Args.empty = (["Unknown tool: frobnicate"], ⟨[], 0⟩) ∧
    (dbWrap "frobnicate" (.error ⟨"ValueError", "boom"⟩, [])).1
      = ["Error executing frobnicate: [ValueError] boom"] :=
  ⟨by decide,
   (c1_one_text_block cEnv "frobnicate" Args.empty).1,
   (c1_one_text_block cEnv "frobnicate" Args.empty).2.1 (by decide),
   (c1_one_text_block cEnv "frobnicate" Args.empty).2.2.1 ⟨"ValueError", "boom"⟩
     (.error ⟨"ValueError", "boom"⟩, []) rfl⟩

/-- Routing reduction: a name in the database list goes to `DatabaseTools`. -/
theorem call_tool_db_red (env : Env) (name : String) (args : Args)
    (h : dbToolNames.contains name = true) :
    call_tool env name args
      = ((dbExecuteTool env.store name args).1,
         ⟨(dbExecuteTool env.store name args).2, 0⟩) := by
  unfold call_tool
  rw [if_pos h]

/-- Routing reduction: a name in the RAG list goes to `RAGTools`. -/
theorem call_tool_rag_red (env : Env) (name : String) (args : Args)
    (hdb : dbToolNames.contains name = false) (hrag : ragToolNames.contains name = true) :
    call_tool env name args
      = ((ragExecuteTool env.rag name args).1,
         ⟨[], (ragExecuteTool env.rag name args).2⟩) := by
  unfold call_tool
  rw [if_neg (by simpa using hdb), if_pos hrag]

/-- `execute_tool` routing at the literal name `query_database`. -/
theorem dbExecuteTool_query (store : Store) (args : Args) :
    dbExecuteTool store "query_database" args
      = dbWrap "query_database" (handle_query_database store args) := rfl

/-- `execute_tool` routing at the literal name `get_documents_from_db`. -/
theorem dbExecuteTool_docs (store : Store) (args : Args) :
    dbExecuteTool store "get_documents_from_db" args
      = dbWrap "get_documents_from_db" (handle_get_documents store args) := rfl

/-- `execute_tool` routing at the literal name `get_user_info`. -/
theorem dbExecuteTool_user (store : Store) (args : Args) :
    dbExecuteTool store "get_user_info" args
      = dbWrap "get_user_info" (handle_get_user_info store args) := rfl

/-- `execute_tool` routing at the literal name `upload_pdf`. -/
theorem ragExecuteTool_upload (env : RagEnv) (args : Args) :
    ragExecuteTool env "upload_pdf" args
      = ragWrap "upload_pdf" (handle_upload_pdf env args) := rfl

/-- C5: a `query_database` call whose query fails validation returns the
error envelope built from the validator rejection, and the store is never
invoked — the submitted-query log is empty, for every store behaviour. -/
theorem c5_invalid_query_rejected_before_store (env : Env) (q : String) (e : PyError)
    (hval : validate_sql_query q = .error e) :
    call_tool env "query_database" ⟨some q, none, none, none, none, none, none, none⟩
      = ([format_error_message e "query_database"], ⟨[], 0⟩) := by
  rw [call_tool_db_red env "query_database" _ (by decide), dbExecuteTool_query]
  have hh : handle_query_database env.store
      ⟨some q, none, none, none, none, none, none, none⟩ = (.error e, []) := by
    simp only [handle_query_database, execute_select_query, hval]
  rw [hh]
  rfl

/-- C5 witness: the claim instantiated at `UPDATE t SET x=1` against the
benign environment; the result is the `ValidationError` envelope and the
empty store log. -/
theorem c5_witness :
    validate_sql_query "UPDATE t SET x=1"
      = .error ⟨"ValidationError",
          "Query contains forbidden keyword: UPDATE. Only SELECT queries are allowed."⟩ ∧
    call_tool cEnv "query_database"
        ⟨some "UPDATE t SET x=1", none, none, none, none, none, none, none⟩
      = (["Error executing query_database: [ValidationError] Query contains forbidden keyword: UPDATE. Only SELECT queries are allowed."],
         ⟨[], 0⟩) :=
  ⟨by decide,
   c5_invalid_query_rejected_before_store cEnv "UPDATE t SET x=1"
     ⟨"ValidationError",
      "Query contains forbidden keyword: UPDATE. Only SELECT queries are allowed."⟩
     (by decide)⟩

/-- C4: dispatching `get_user_info` against a store that returns zero rows
for the fixed user query yields the success text `User not found: <user_id>`
(logged as one store submission), and that text does not carry the error
envelope prefix. -/
theorem c4_user_not_found (env : Env) (uid : String)
    (hstore : env.store.exec "SELECT * FROM users WHERE id = %s"
        (some [.vStr uid]) = .ok []) :
    call_tool env "get_user_info" ⟨none, none, some uid, none, none, none, none, none⟩
      = (["User not found: " ++ uid],
         ⟨[("SELECT * FROM users WHERE id = %s", some [.vStr uid])], 0⟩) ∧
    startsWithL "Error executing".data ("User not found: " ++ uid).data = false := by
  constructor
  · rw [call_tool_db_red env "get_user_info" _ (by decide), dbExecuteTool_user]
    have hv : validate_sql_query "SELECT * FROM users WHERE id = %s" = .ok true := by
      decide
    have hh : handle_get_user_info env.store
        ⟨none, none, some uid, none, none, none, none, none⟩
        = (.ok ["User not found: " ++ uid],
           [("SELECT * FROM users WHERE id = %s", some [.vStr uid])]) := by
      simp only [handle_get_user_info, get_user, execute_select_query, hv, hstore]
      rfl
    rw [hh]
    rfl
  · rfl

/-- C4 witness: the benign zero-row store, queried for `missing-id`. -/
theorem c4_witness :
    cEnv.store.exec "SELECT * FROM users WHERE id = %s"
        (some [.vStr "missing-id"]) = .ok [] ∧
    call_tool cEnv "get_user_info"
        ⟨none, none, some "missing-id", none, none, none, none, none⟩
      = (["User not found: missing-id"],
         ⟨[("SELECT * FROM users WHERE id = %s", some [.vStr "missing-id"])], 0⟩) :=
  ⟨rfl, (c4_user_not_found cEnv "missing-id" rfl).1⟩

/-- C7: dispatching `get_documents_from_db` with an empty argument bag runs
the unfiltered documents query with the default limit 10 — it does not fail —
and renders the store rows with the `Found <n> documents` header. -/
theorem c7_documents_defaults (env : Env) (rows : List Row)
    (hstore : env.store.exec "SELECT * FROM documents LIMIT %s"
        (some [.vInt 10]) = .ok rows) :
    call_tool env "get_documents_from_db" Args.empty
      = (["Found " ++ toString rows.length ++ " documents:\n\n"
          ++ format_database_results rows none],
         ⟨[("SELECT * FROM documents LIMIT %s", some [.vInt 10])], 0⟩) := by
  rw [call_tool_db_red env "get_documents_from_db" _ (by decide), dbExecuteTool_docs]
  have hv : validate_sql_query "SELECT * FROM documents LIMIT %s" = .ok true := by decide
  have hl : validate_limit 10 1000 = .ok true := by decide
  have hh : handle_get_documents env.store Args.empty
      = (.ok ["Found " ++ toString rows.length ++ " documents:\n\n"
          ++ format_database_results rows none],
         [("SELECT * FROM documents LIMIT %s", some [.vInt 10])]) := by
    simp only [handle_get_documents, get_documents, execute_select_query, Args.empty,
      Option.getD_none, hv, hl, hstore]
  rw [hh]
  rfl

/-- C7 witness: the empty bag against the zero-row store renders the
unfiltered query with limit 10 and the `Found 0 documents` header. -/
theorem c7_witness :
    cEnv.store.exec "SELECT * FROM documents LIMIT %s" (some [.vInt 10]) = .ok [] ∧
    call_tool cEnv "get_documents_from_db" Args.empty
      = (["Found 0 documents:\n\nNo results found"],
         ⟨[("SELECT * FROM documents LIMIT %s", some [.vInt 10])], 0⟩) :=
  ⟨rfl, c7_documents_defaults cEnv [] rfl⟩

/-- C10: every successful `query_database` call returns the header
`Query executed successfully. Found <n> rows.` with `n` the store row count,
a blank line, then the row-formatter output (which is `No results found` for
an empty result). -/
theorem c10_query_success_header (env : Env) (q : String) (rows : List Row)
    (hval : validate_sql_query q = .ok true)
    (hstore : env.store.exec q none = .ok rows) :
    (call_tool env "query_database"
        ⟨some q, none, none, none, none, none, none, none⟩).1
      = ["Query executed successfully. Found " ++ toString rows.length
          ++ " rows.\n\n" ++ format_database_results rows none] ∧
    format_database_results [] none = "No results found" := by
  constructor
  · rw [call_tool_db_red env "query_database" _ (by decide), dbExecuteTool_query]
    have hh : handle_query_database env.store
        ⟨some q, none, none, none, none, none, none, none⟩
        = (.ok ["Query executed successfully. Found " ++ toString rows.length
            ++ " rows.\n\n" ++ format_database_results rows none], [(q, none)]) := by
      simp only [handle_query_database, execute_select_query, hval, hstore]
    rw [hh]
    rfl
  · rfl

/-- C10 witness: `SELECT 1` against the zero-row store yields the header with
`n = 0` followed by `No results found`. -/
theorem c10_witness :
    validate_sql_query "SELECT 1" = .ok true ∧
    cEnv.store.exec "SELECT 1" none = .ok [] ∧
    (call_tool cEnv "query_database"
        ⟨some "SELECT 1", none, none, none, none, none, none, none⟩).1
      = ["Query executed successfully. Found 0 rows.\n\nNo results found"] :=
  ⟨by decide, rfl, (c10_query_success_header cEnv "SELECT 1" [] (by decide) rfl).1⟩

/-- C6 counterexample: dispatching `upload_pdf` on the non-`.pdf` path
`/tmp/doc.txt` when that file does not exist rejects with the service's
existence check (`FileNotFoundError`), not with the extension check, and the
declared `validate_file_path` extension validator — which would have rejected
with its own `ValidationError` text — is not what produced the rejection. -/
theorem c6_counterexample :
    call_tool cEnv "upload_pdf"
        ⟨none, none, none, none, none, some "/tmp/doc.txt", none, none⟩
      = (["Error executing upload_pdf: [FileNotFoundError] File not found: /tmp/doc.txt"],
         ⟨[], 0⟩) ∧
    validate_file_path "/tmp/doc.txt" [".pdf"]
      = .error ⟨"ValidationError", "File extension not allowed. Allowed: .pdf"⟩ := by
  exact ⟨by decide, by decide⟩

/-- C6 (amended): dispatching `upload_pdf` with a path whose case-insensitive
extension is not `.pdf` makes zero network calls; the rejection comes from the
RAG service's own inline checks — the existence check first
(`FileNotFoundError` when the file is absent), otherwise the inline extension
check (`ValueError: Only PDF files are supported`) — not from the declared
`validate_file_path` validator. -/
theorem c6_upload_rejected_before_network (env : Env) (p : String)
    (title description : Option String)
    (hext : endsWithL ".pdf".data (pyLower p.data) = false) :
    call_tool env "upload_pdf" ⟨none, none, none, none, none, some p, title, description⟩
      = ([format_error_message
            (if env.rag.fs p then (⟨"ValueError", "Only PDF files are supported"⟩ : PyError)
             else ⟨"FileNotFoundError", "File not found: " ++ p⟩) "upload_pdf"],
         ⟨[], 0⟩) := by
  rw [call_tool_rag_red env "upload_pdf" _ (by decide) (by decide), ragExecuteTool_upload]
  have hh : handle_upload_pdf env.rag
      ⟨none, none, none, none, none, some p, title, description⟩
      = (.error (if env.rag.fs p then (⟨"ValueError", "Only PDF files are supported"⟩ : PyError)
               else ⟨"FileNotFoundError", "File not found: " ++ p⟩), 0) := by
    by_cases hfs : env.rag.fs p = false
    · simp [handle_upload_pdf, upload_document, hfs]
    · have hfs2 : env.rag.fs p = true := by simpa using hfs
      simp [handle_upload_pdf, upload_document, hfs2, hext]
  rw [hh]
  rfl

/-- C6 witness: against a filesystem where the path exists, the non-`.pdf`
extension is rejected by the service's inline `ValueError` with zero network
calls. -/
theorem c6_witness :
    endsWithL ".pdf".data (pyLower "/tmp/doc.txt".data) = false ∧
    call_tool cEnvFs "upload_pdf"
        ⟨none, none, none, none, none, some "/tmp/doc.txt", none, none⟩
      = (["Error executing upload_pdf: [ValueError] Only PDF files are supported"],
         ⟨[], 0⟩) :=
  ⟨by decide,
   c6_upload_rejected_before_network cEnvFs "/tmp/doc.txt" none none (by decide)⟩
